import Mathlib

/-!
Verification of the dispatch-table registry and logging subsystem of the
Vulkan performance layers core (`src/layer/layer_data.cc`,
`src/layer/common_logging.h`), shallowly embedded in Lean.

Opaque driver handles (instances, physical devices, devices, shader
modules) are modelled as natural numbers; dispatch tables are opaque
tokens (also naturals).  The hash maps of the C++ code
(`absl::flat_hash_map`) are modelled as association lists with
insert-or-assign / erase / lookup operations.  Vulkan result codes are
integers with the real enumerator values.  Mutex-guarded state is
modelled by explicit state passing (each operation is a function from
state to state); clock reads become explicit arguments; file sinks are
modelled by their durably written contents (a write-and-flush appends a
full line).
-/

namespace PerformanceLayers

/-- Lookup in an association list keyed by naturals (models
`absl::flat_hash_map::find` / `count`). -/
def lookupKey {α : Type} (k : Nat) : List (Nat × α) → Option α
  | [] => none
  | (k', v) :: m => if k' = k then some v else lookupKey k m

/-- Erase a key from an association list (models
`absl::flat_hash_map::erase`). -/
def eraseKey {α : Type} (k : Nat) : List (Nat × α) → List (Nat × α)
  | [] => []
  | (k', v) :: m => if k' = k then eraseKey k m else (k', v) :: eraseKey k m

/-- Insert-or-assign into an association list (models
`absl::flat_hash_map::insert_or_assign`). -/
def insertKey {α : Type} (k : Nat) (v : α) (m : List (Nat × α)) : List (Nat × α) :=
  (k, v) :: eraseKey k m

/-! ## Handle registry (`LayerData` instance maps)

The registry state holds the two instance-side maps of `LayerData`:
`instance_dispatch_map_` (instance key → dispatch table) and
`instance_keys_map_` (instance key → owning instance handle). -/

structure RegistryState where
  instance_dispatch_map : List (Nat × Nat)
  instance_keys_map : List (Nat × Nat)
  deriving DecidableEq, Repr

/-- Modelled from the spec: `InstanceKey` is declared in `layer_data.h`,
which is not under `src/`.  The spec says a key is "derived from either
an instance handle or a physical-device handle, such that any physical
device enumerated under an instance maps to the same key as the instance
itself".  We model the key of an instance handle as the handle value
itself. -/
def InstanceKey (handle : Nat) : Nat := handle

/-- Modelled from the spec: a physical device registered under an
instance is represented by the key it shares with its owning instance
("any physical device enumerated under an instance maps to the same key
as the instance itself"). -/
structure PhysicalDevice where
  ownerKey : Nat
  deriving DecidableEq, Repr

/-- Modelled from the spec: the instance key derived from a physical
device resolves to the owning instance's key. -/
def InstanceKeyOfPhysicalDevice (pd : PhysicalDevice) : Nat := pd.ownerKey

/-- Modelled from the spec: `AddInstance` is declared in `layer_data.h`,
which is not under `src/`.  Per the spec it "registers a new dispatch
table for `handle`" and registers the instance keys so that
physical-device-derived keys resolve to this instance; under the
shared-key model this is the single entry at `InstanceKey handle` in
each map. -/
def AddInstance (handle table : Nat) (s : RegistryState) : RegistryState :=
  { instance_dispatch_map :=
      insertKey (InstanceKey handle) table s.instance_dispatch_map,
    instance_keys_map :=
      insertKey (InstanceKey handle) handle s.instance_keys_map }

/-- Embeds `LayerData::RemoveInstance` (`layer_data.cc`): erases
`InstanceKey(instance)` from `instance_dispatch_map_` and
`instance_keys_map_`. -/
def RemoveInstance (handle : Nat) (s : RegistryState) : RegistryState :=
  { instance_dispatch_map :=
      eraseKey (InstanceKey handle) s.instance_dispatch_map,
    instance_keys_map :=
      eraseKey (InstanceKey handle) s.instance_keys_map }

/-- Modelled from the spec: `GetInstance` is declared in `layer_data.h`,
which is not under `src/`.  It "resolves an instance-key ... to its
owning instance handle; undefined/fails if absent"; absence is modelled
as `none`. -/
def GetInstance (key : Nat) (s : RegistryState) : Option Nat :=
  lookupKey key s.instance_keys_map

/-- A registry operation: an `AddInstance` or a `RemoveInstance` call. -/
inductive RegOp where
  | add (handle table : Nat)
  | remove (handle : Nat)
  deriving DecidableEq, Repr

def applyRegOp (op : RegOp) (s : RegistryState) : RegistryState :=
  match op with
  | .add h t => AddInstance h t s
  | .remove h => RemoveInstance h s

def runRegOps (ops : List RegOp) (s : RegistryState) : RegistryState :=
  ops.foldl (fun s op => applyRegOp op s) s

/-! ## Creation-parameter chain and create-call orchestration

The opaque `pNext` chain of `VkInstanceCreateInfo` / `VkDeviceCreateInfo`
is modelled, per the spec's design note, as a list of tagged records,
each carrying the structure-type discriminant (`sType`) and the layer
sub-discriminant (`function`).  The next layer's behaviour (the result
of the forwarded create call, the handle it writes, whether registration
succeeds) is passed in explicitly, since it reaches the code only
through function pointers resolved at run time. -/

/-- A record of the creation-parameter `pNext` chain.  `sType` is the
structure-type tag; `function` is the `VkLayerFunction` sub-tag. -/
structure ChainNode where
  sType : Nat
  function : Nat
  deriving DecidableEq, Repr

/-- `VK_STRUCTURE_TYPE_LOADER_INSTANCE_CREATE_INFO` (vk_layer.h). -/
def VK_STRUCTURE_TYPE_LOADER_INSTANCE_CREATE_INFO : Nat := 47

/-- `VK_STRUCTURE_TYPE_LOADER_DEVICE_CREATE_INFO` (vk_layer.h). -/
def VK_STRUCTURE_TYPE_LOADER_DEVICE_CREATE_INFO : Nat := 48

/-- `VK_LAYER_LINK_INFO` (vk_layer.h `VkLayerFunction`). -/
def VK_LAYER_LINK_INFO : Nat := 0

/-- `VK_SUCCESS`. -/
def VK_SUCCESS : Int := 0

/-- `VK_ERROR_OUT_OF_HOST_MEMORY`. -/
def VK_ERROR_OUT_OF_HOST_MEMORY : Int := -1

/-- `VK_ERROR_INITIALIZATION_FAILED`. -/
def VK_ERROR_INITIALIZATION_FAILED : Int := -3

/-- Embeds `FindInstanceCreateInfo` (`layer_data.cc`): linear walk over
the chain, skipping nodes until one has the loader-instance tag and the
link-info sub-tag; `none` when the walk falls off the end. -/
def FindInstanceCreateInfo : List ChainNode → Option ChainNode
  | [] => none
  | n :: rest =>
    if n.sType = VK_STRUCTURE_TYPE_LOADER_INSTANCE_CREATE_INFO ∧
        n.function = VK_LAYER_LINK_INFO then
      some n
    else
      FindInstanceCreateInfo rest

/-- Embeds `FindDeviceCreateInfo` (`layer_data.cc`): same walk with the
loader-device tag. -/
def FindDeviceCreateInfo : List ChainNode → Option ChainNode
  | [] => none
  | n :: rest =>
    if n.sType = VK_STRUCTURE_TYPE_LOADER_DEVICE_CREATE_INFO ∧
        n.function = VK_LAYER_LINK_INFO then
      some n
    else
      FindDeviceCreateInfo rest

/-- Modelled from the spec: `AddInstance` returns `false` when
"registration cannot be completed (e.g., resource exhaustion)"; on
failure the registry stores nothing.  The allocation outcome `ok` is an
explicit input. -/
def AddInstanceChecked (ok : Bool) (handle table : Nat) (s : RegistryState) :
    Bool × RegistryState :=
  if ok then (true, AddInstance handle table s) else (false, s)

/-- Modelled from the spec: `AddDevice` has the "same contract for a
device handle, keyed independently from instances"; the device dispatch
map is a separate association list. -/
def AddDeviceChecked (ok : Bool) (handle table : Nat)
    (dmap : List (Nat × Nat)) : Bool × List (Nat × Nat) :=
  if ok then (true, insertKey handle table dmap) else (false, dmap)

/-- Outcome of `LayerData::CreateInstance`: the returned `VkResult`, the
registry state afterwards, and whether the next layer's create function
was invoked. -/
structure CreateOutcome where
  result : Int
  state : RegistryState
  calledNext : Bool
  deriving DecidableEq, Repr

/-- Embeds `LayerData::CreateInstance` (`layer_data.cc`): finds the
loader linkage record; absent ⇒ `VK_ERROR_INITIALIZATION_FAILED` with no
forwarded call; otherwise forwards to the next layer's `vkCreateInstance`
(outcome `nextResult`/`nextInstance` supplied explicitly), propagates a
non-success result unchanged, and on success registers the dispatch
table built by the caller-supplied builder, reporting
`VK_ERROR_OUT_OF_HOST_MEMORY` when `AddInstance` fails. -/
def CreateInstance (chain : List ChainNode) (nextResult : Int)
    (nextInstance : Nat) (dispatchTable : Nat) (addOk : Bool)
    (s : RegistryState) : CreateOutcome :=
  match FindInstanceCreateInfo chain with
  | none => ⟨VK_ERROR_INITIALIZATION_FAILED, s, false⟩
  | some _ =>
    if nextResult ≠ VK_SUCCESS then
      ⟨nextResult, s, true⟩
    else
      match AddInstanceChecked addOk nextInstance dispatchTable s with
      | (true, s') => ⟨VK_SUCCESS, s', true⟩
      | (false, s') => ⟨VK_ERROR_OUT_OF_HOST_MEMORY, s', true⟩

/-- Outcome of `LayerData::CreateDevice`: returned `VkResult`, device
dispatch map afterwards, and whether the next layer's create function
was invoked.  The whole outcome is `none` when the `assert(instance)`
after the `GetInstance` lookup fails. -/
structure DeviceCreateOutcome where
  result : Int
  deviceMap : List (Nat × Nat)
  calledNext : Bool
  deriving DecidableEq, Repr

/-- Embeds `LayerData::CreateDevice` (`layer_data.cc`): finds the loader
device linkage record (absent ⇒ `VK_ERROR_INITIALIZATION_FAILED`),
resolves the owning instance via the physical-device key (assertion
failure modelled as `none`), forwards the create call, propagates a
non-success result unchanged, and on success registers the device
dispatch table, reporting `VK_ERROR_OUT_OF_HOST_MEMORY` when `AddDevice`
fails. -/
def CreateDevice (chain : List ChainNode) (pdKey : Nat) (nextResult : Int)
    (nextDevice : Nat) (dispatchTable : Nat) (addOk : Bool)
    (s : RegistryState) (dmap : List (Nat × Nat)) :
    Option DeviceCreateOutcome :=
  match FindDeviceCreateInfo chain with
  | none => some ⟨VK_ERROR_INITIALIZATION_FAILED, dmap, false⟩
  | some _ =>
    match GetInstance pdKey s with
    | none => none
    | some _ =>
      if nextResult ≠ VK_SUCCESS then
        some ⟨nextResult, dmap, true⟩
      else
        match AddDeviceChecked addOk nextDevice dispatchTable dmap with
        | (true, dmap') => some ⟨VK_SUCCESS, dmap', true⟩
        | (false, dmap') => some ⟨VK_ERROR_OUT_OF_HOST_MEMORY, dmap', true⟩

/-! ## Hash rendering and log-line formatting -/

/-- Lowercase hexadecimal digit character for a value below 16 (`'0'` is
code 48, `'a'` is code 97 = 87 + 10). -/
def hexDigitChar (n : Nat) : Char :=
  if n < 10 then Char.ofNat (48 + n) else Char.ofNat (87 + n)

/-- Least-significant-first hexadecimal digits, with explicit fuel so the
definition is structurally recursive (the fuel `n` always suffices since
a number has at most as many digits as its value). -/
def hexDigitsRevFuel : Nat → Nat → List Char
  | 0, _ => []
  | fuel + 1, n =>
    if n = 0 then [] else hexDigitChar (n % 16) :: hexDigitsRevFuel fuel (n / 16)

/-- Least-significant-first hexadecimal digits of `n` (empty for 0). -/
def hexDigitsRev (n : Nat) : List Char := hexDigitsRevFuel n n

/-- Embeds `LayerData::ShaderHashToString` (`layer_data.cc`):
`absl::StrFormat("%#x", hash)`.  Per the `printf` specification followed
by `absl::StrFormat`, `%x` renders in lowercase hexadecimal and the `#`
alternate-form flag prepends `0x` only to a nonzero result; zero renders
as `"0"` with no prefix. -/
def ShaderHashToString (hash : Nat) : String :=
  if hash = 0 then "0" else "0x" ++ String.mk (hexDigitsRev hash).reverse

/-- Comma-separated join (models `absl::StrJoin(_, ",")`). -/
def joinComma : List String → String
  | [] => ""
  | [x] => x
  | x :: y :: xs => x ++ "," ++ joinComma (y :: xs)

/-- Embeds `LayerData::PipelineHashToString` (`layer_data.cc`): the
shader hashes of a pipeline, comma-joined and enclosed in brackets. -/
def PipelineHashToString (pipeline : List Nat) : String :=
  "[" ++ joinComma (pipeline.map ShaderHashToString) ++ "]"

/-- Escaping performed by `std::quoted` with the default delimiter `"`
and escape `\`: each embedded delimiter or escape character is preceded
by the escape character. -/
def escapeQuotedChars : List Char → List Char
  | [] => []
  | c :: cs =>
    if c = '"' ∨ c = '\\' then '\\' :: c :: escapeQuotedChars cs
    else c :: escapeQuotedChars cs

/-- `std::quoted` with default delimiters: the escaped string enclosed
in double quotes. -/
def quotedStr (s : String) : String :=
  "\"" ++ String.mk (escapeQuotedChars s.data) ++ "\""

/-- Modelled from the spec: `CsvCat` lives in `layer_utils.h`, which is
not under `src/`; per the spec it "turns a sequence of typed fields into
one well-formed log line", joining fields with commas. -/
def CsvCat2 (a b : String) : String := a ++ "," ++ b

/-- Modelled from the spec: `ToUnixNanos` lives in `layer_utils.h`,
which is not under `src/`; timestamps are modelled directly as the
signed nanosecond count it returns. -/
def ToUnixNanos (ts : Int) : Int := ts

/-- Embeds `MakeEventLogPrefix` (`layer_data.cc`): the event-log row
start, `event_type` and the timestamp in nanoseconds, comma-separated. -/
def MakeEventLogPrefix (event_type : String) (ts : Int) : String :=
  CsvCat2 event_type (toString ( ToUnixNanos ts))

/-- Modelled from the spec: `WriteLnAndFlush` lives in `layer_utils.h`,
which is not under `src/`; per the spec it "performs an atomic single
write-and-flush of a complete line to a file sink".  A sink is modelled
by its durably written contents, so a write-and-flush appends the line
and its terminator. -/
def WriteLnAndFlush (sink line : String) : String := sink ++ line ++ "\n"

/-- State of the `LayerData` sinks: the primary log (`out_`) and the
optional secondary structured event log (`event_log_`, present only when
the event-log environment variable named a file). -/
structure LoggerState where
  out : String
  event_log : Option String
  deriving DecidableEq, Repr

/-- Embeds `LayerData::LogLine` (`layer_data.cc`): writes `line` to the
primary sink, and, when the secondary event log is configured, writes
the event-log row (prefix followed by the same line) to it. -/
def LogLine (event_type line : String) (ts : Int) (s : LoggerState) :
    LoggerState :=
  { out := WriteLnAndFlush s.out line,
    event_log := s.event_log.map fun el =>
      WriteLnAndFlush el (CsvCat2 ( MakeEventLogPrefix event_type ts) line) }

/-- Embeds `LayerData::Log` (`layer_data.cc`): quotes the bracketed
pipeline-hash string (so the comma-separated hash array stays one CSV
cell), joins it with the caller's prefix content, and forwards to
`LogLine`. -/
def Log (event_type : String) (pipeline : List Nat) (content : String)
    (ts : Int) (s : LoggerState) : LoggerState :=
  LogLine event_type
    (CsvCat2 (quotedStr (PipelineHashToString pipeline)) content) ts s

/-! ## Spec-side readers of the hexadecimal rendering (used to state
what "lowercase hexadecimal rendering" means independently of the
renderer). -/

/-- A character is a lowercase hexadecimal digit. -/
def isLowerHexDigit (c : Char) : Bool :=
  if ('0' ≤ c ∧ c ≤ '9') ∨ ('a' ≤ c ∧ c ≤ 'f') then true else false

/-- Value of a lowercase hexadecimal digit character. -/
def hexCharVal (c : Char) : Nat :=
  if c.toNat ≤ 57 then c.toNat - 48 else c.toNat - 87

/-- Interpret a most-significant-first digit string in base 16. -/
def ofHexDigits (l : List Char) : Nat :=
  l.foldl (fun a c => a * 16 + hexCharVal c) 0

/-! ## Inter-event time delta -/

/-- `DurationClock::time_point::min()`: the sentinel held in
`last_log_time_` before the first `GetTimeDelta` call (64-bit signed
nanosecond representation, −2⁶³). -/
def TIMEPOINT_MIN : Int := -9223372036854775808

/-- `DurationClock::duration::min()`: the sentinel "no prior call"
return value of `GetTimeDelta` (−2⁶³). -/
def DURATION_MIN : Int := -9223372036854775808

/-- The `last_log_time_` cell guarded by `log_time_lock_`. -/
structure TimeState where
  last_log_time : Int
  deriving DecidableEq, Repr

/-- Modelled from the spec: the member initializer of `last_log_time_`
is in `layer_data.h`, which is not under `src/`; per the spec a fresh
instance holds the sentinel ("no prior call" on first use). -/
def freshTimeState : TimeState := ⟨TIMEPOINT_MIN⟩

/-- Embeds `LayerData::GetTimeDelta` (`layer_data.cc`): reads the clock
(`now` passed explicitly), returns `now - last_log_time_` when a prior
call stored a time, the sentinel `DurationClock::duration::min()`
otherwise, and stores `now`. -/
def GetTimeDelta (now : Int) (s : TimeState) : Int × TimeState :=
  (if s.last_log_time ≠ TIMEPOINT_MIN then now - s.last_log_time
   else DURATION_MIN,
   ⟨now⟩)

/-! ## CommonLogger (`common_logging.h`) -/

/-- A `FILE*` sink: the process's standard error stream or an opened
file (identified by a token). -/
inductive LogSink where
  | stderrSink
  | fileSink (id : Nat)
  deriving DecidableEq, Repr

/-- State of a `CommonLogger`: the `out_` pointer (`none` models
`nullptr`), the trace of `fclose` calls, and the lines written so far. -/
structure CommonLoggerState where
  out : Option LogSink
  closed : List Nat
  written : List (LogSink × String)
  deriving DecidableEq, Repr

/-- An `Event`: a name and named attributes in declaration order. -/
structure Event where
  name : String
  attributes : List (String × String)
  deriving DecidableEq, Repr

/-- Modelled from the spec: `EventToCommonLogStr` is implemented outside
`src/` (only declared in `common_logging.h`); per the spec an event
becomes `eventName,attr1:value1,attr2:value2,...` in declared attribute
order. -/
def EventToCommonLogStr (e : Event) : String :=
  joinComma (e.name :: e.attributes.map fun a => a.1 ++ ":" ++ a.2)

/-- Embeds `CommonLogger::EndLog` (`common_logging.h`): when `out_` is
non-null and not `stderr`, closes it and nulls the pointer; otherwise
does nothing. -/
def EndLog (s : CommonLoggerState) : CommonLoggerState :=
  match s.out with
  | some (LogSink.fileSink i) =>
    { s with out := none, closed := s.closed ++ [i] }
  | _ => s

/-- Embeds `CommonLogger::AddEvent` (`common_logging.h`):
`assert(out_)` (failure modelled as `none`), then a write-and-flush of
the common-log line to `out_`. -/
def AddEvent (e : Event) (s : CommonLoggerState) : Option CommonLoggerState :=
  match s.out with
  | none => none
  | some snk =>
    some { s with written := s.written ++ [(snk, EventToCommonLogStr e)] }

/-- Embeds `CommonLogger::Flush` (`common_logging.h`): `assert(out_)`
(failure modelled as `none`), then `fflush` (no observable state
change in the durable-contents model). -/
def Flush (s : CommonLoggerState) : Option CommonLoggerState :=
  match s.out with
  | none => none
  | some _ => some s

/-! ## Shader-module creation -/

/-- The `shader_hash_map_` registry (shader-module handle → content
hash). -/
structure ShaderState where
  shader_hash_map : List (Nat × Nat)
  deriving DecidableEq, Repr

/-- Modelled from the spec: the hash function behind `HashShader` is in
`layer_data.h`/`layer_utils.h`, not under `src/`; per the spec it is a
"deterministic hash of a shader binary blob, combined with its object
identity, producing a stable 64-bit identifier".  Any concrete
deterministic 64-bit combination of module handle and code words is a
faithful model. -/
def shaderHashValue (modHandle : Nat) (code : List Nat) : Nat :=
  code.foldl (fun a w => (a * 31 + w) % 2 ^ 64) (modHandle % 2 ^ 64)

/-- Modelled from the spec: `HashShader` is declared in `layer_data.h`,
which is not under `src/`; it computes the content hash from the module
handle and code bytes and registers it in the shader-hash registry,
returning the hash. -/
def HashShader (modHandle : Nat) (code : List Nat) (s : ShaderState) :
    Nat × ShaderState :=
  let h := shaderHashValue modHandle code
  (h, ⟨insertKey modHandle h s.shader_hash_map⟩)

/-- `LayerData::ShaderModuleCreateResult`: forwarded status, content
hash, and the monotonic time points captured around the forwarded
call. -/
structure ShaderModuleCreateResult where
  result : Int
  shader_hash : Nat
  create_start : Int
  create_end : Int
  deriving DecidableEq, Repr

/-- Embeds `LayerData::CreateShaderModule` (`layer_data.cc`): captures
`start`, forwards to the next layer's `vkCreateShaderModule` (its result
and the module handle it writes are explicit inputs), captures `end`,
hashes and registers the shader unconditionally, and returns
`{result, hash, start, end}`. -/
def CreateShaderModule (nextResult : Int) (outModule : Nat)
    (code : List Nat) (startTime endTime : Int) (s : ShaderState) :
    ShaderModuleCreateResult × ShaderState :=
  let hashed := HashShader outModule code s
  (⟨nextResult, hashed.1, startTime, endTime⟩, hashed.2)

/-! ## Association-list lemmas -/

theorem lookupKey_eraseKey_self {α : Type} (k : Nat) (m : List (Nat × α)) :
    lookupKey k (eraseKey k m) = none := by
  induction m with
  | nil => rfl
  | cons p m ih =>
    cases p with
    | mk a v =>
      by_cases h : a = k
      · simpa [eraseKey, h] using ih
      · simp [eraseKey, h, lookupKey, ih]

theorem lookupKey_eraseKey_ne {α : Type} (k k' : Nat) (hkk : k' ≠ k)
    (m : List (Nat × α)) : lookupKey k (eraseKey k' m) = lookupKey k m := by
  induction m with
  | nil => rfl
  | cons p m ih =>
    cases p with
    | mk a v =>
      by_cases ha : a = k'
      · subst ha
        simp [eraseKey, lookupKey, hkk, ih]
      · by_cases hak : a = k
        · subst hak
          simp [eraseKey, ha, lookupKey]
        · simp [eraseKey, ha, lookupKey, hak, ih]

theorem lookupKey_insertKey_self {α : Type} (k : Nat) (v : α)
    (m : List (Nat × α)) : lookupKey k (insertKey k v m) = some v := by
  simp [insertKey, lookupKey]

theorem lookupKey_insertKey_ne {α : Type} (k k' : Nat) (hkk : k' ≠ k) (v : α)
    (m : List (Nat × α)) :
    lookupKey k (insertKey k' v m) = lookupKey k m := by
  simp [insertKey, lookupKey, hkk, lookupKey_eraseKey_ne k k' hkk]

/-! ## C1: RemoveInstance removes the dispatch entry and all keys -/

/-- Keys absent from both maps stay absent under any operation that does
not add a handle with that key. -/
theorem absent_preserved (k : Nat) (op : RegOp)
    (hop : ∀ h t, op = RegOp.add h t → InstanceKey h ≠ k) (s : RegistryState)
    (hd : lookupKey k s.instance_dispatch_map = none)
    (hk : lookupKey k s.instance_keys_map = none) :
    lookupKey k (applyRegOp op s).instance_dispatch_map = none ∧
    lookupKey k (applyRegOp op s).instance_keys_map = none := by
  cases op with
  | add h t =>
    have hne : InstanceKey h ≠ k := hop h t rfl
    constructor
    · simpa [applyRegOp, AddInstance, lookupKey_insertKey_ne k _ hne] using hd
    · simpa [applyRegOp, AddInstance, lookupKey_insertKey_ne k _ hne] using hk
  | remove h =>
    by_cases hke : InstanceKey h = k
    · subst hke
      exact ⟨lookupKey_eraseKey_self _ _, lookupKey_eraseKey_self _ _⟩
    · constructor
      · simpa [applyRegOp, RemoveInstance,
          lookupKey_eraseKey_ne _ _ hke] using hd
      · simpa [applyRegOp, RemoveInstance,
          lookupKey_eraseKey_ne _ _ hke] using hk

theorem absent_preserved_run (k : Nat) (ops : List RegOp) :
    (∀ h t, RegOp.add h t ∈ ops → InstanceKey h ≠ k) →
    ∀ s : RegistryState,
      lookupKey k s.instance_dispatch_map = none →
      lookupKey k s.instance_keys_map = none →
      lookupKey k (runRegOps ops s).instance_dispatch_map = none ∧
      lookupKey k (runRegOps ops s).instance_keys_map = none := by
  induction ops with
  | nil => exact fun _ s hd hk => ⟨hd, hk⟩
  | cons op rest ih =>
    intro hops s hd hk
    have hstep := absent_preserved k op
      (fun h t hop => hops h t (by simp [hop])) s hd hk
    simpa [runRegOps] using
      ih (fun h t hmem => hops h t (by simp [hmem]))
        (applyRegOp op s) hstep.1 hstep.2

/-- C1: for every sequence of `AddInstance`/`RemoveInstance` calls on
distinct handles (no later call re-adds the removed instance's key),
after `RemoveInstance h` the dispatch-table entry for `h` is gone and
`GetInstance` is absent on every key derived from that instance,
including keys derived from physical devices registered under it (which
share the instance's key). -/
theorem removeInstance_removes_all_keys (h : Nat) (s : RegistryState)
    (post : List RegOp)
    (hpost : ∀ h' t, RegOp.add h' t ∈ post → InstanceKey h' ≠ InstanceKey h) :
    lookupKey (InstanceKey h)
      (runRegOps post (RemoveInstance h s)).instance_dispatch_map = none ∧
    GetInstance (InstanceKey h) (runRegOps post (RemoveInstance h s)) = none ∧
    ∀ pd : PhysicalDevice, pd.ownerKey = InstanceKey h →
      GetInstance (InstanceKeyOfPhysicalDevice pd)
        (runRegOps post (RemoveInstance h s)) = none := by
  have h0d : lookupKey (InstanceKey h)
      (RemoveInstance h s).instance_dispatch_map = none :=
    lookupKey_eraseKey_self _ _
  have h0k : lookupKey (InstanceKey h)
      (RemoveInstance h s).instance_keys_map = none :=
    lookupKey_eraseKey_self _ _
  have hrun := absent_preserved_run (InstanceKey h) post hpost
    (RemoveInstance h s) h0d h0k
  refine ⟨hrun.1, hrun.2, ?_⟩
  intro pd hpd
  simpa [GetInstance, InstanceKeyOfPhysicalDevice, hpd] using hrun.2

/-- Witness for C1 at a concrete sequence: add instances 1 and 2, remove
instance 1, then add instance 3; instance 1's key resolves to nothing. -/
theorem removeInstance_removes_all_keys_witness :
    (∀ h' t, RegOp.add h' t ∈ [RegOp.add 3 30] → InstanceKey h' ≠ InstanceKey 1) ∧
    (lookupKey (InstanceKey 1)
      (runRegOps [RegOp.add 3 30]
        (RemoveInstance 1
          (AddInstance 2 20 (AddInstance 1 10 ⟨[], []⟩)))).instance_dispatch_map
        = none ∧
    GetInstance (InstanceKey 1)
      (runRegOps [RegOp.add 3 30]
        (RemoveInstance 1
          (AddInstance 2 20 (AddInstance 1 10 ⟨[], []⟩)))) = none ∧
    ∀ pd : PhysicalDevice, pd.ownerKey = InstanceKey 1 →
      GetInstance (InstanceKeyOfPhysicalDevice pd)
        (runRegOps [RegOp.add 3 30]
          (RemoveInstance 1
            (AddInstance 2 20 (AddInstance 1 10 ⟨[], []⟩)))) = none) := by
  constructor
  · intro h' t hmem
    simp only [List.mem_singleton] at hmem
    cases hmem
    decide
  · exact removeInstance_removes_all_keys 1
      (AddInstance 2 20 (AddInstance 1 10 ⟨[], []⟩)) [RegOp.add 3 30]
      (by intro h' t hmem
          simp only [List.mem_singleton] at hmem
          cases hmem
          decide)

/-! ## C2–C4: create-call error handling -/

theorem findInstanceCreateInfo_eq_none (chain : List ChainNode)
    (hchain : ∀ n ∈ chain,
      ¬(n.sType = VK_STRUCTURE_TYPE_LOADER_INSTANCE_CREATE_INFO ∧
        n.function = VK_LAYER_LINK_INFO)) :
    FindInstanceCreateInfo chain = none := by
  induction chain with
  | nil => rfl
  | cons n rest ih =>
    have hn := hchain n (by simp)
    simp only [FindInstanceCreateInfo, if_neg hn]
    exact ih (fun n' hmem => hchain n' (by simp [hmem]))

/-- C2: when no record of the chain carries the loader-instance tag
together with the link-function sub-tag, `CreateInstance` returns
`VK_ERROR_INITIALIZATION_FAILED`, does not call through to the next
layer, and leaves the registry untouched. -/
theorem createInstance_no_loader_link (chain : List ChainNode)
    (nextResult : Int) (nextInstance dispatchTable : Nat) (addOk : Bool)
    (s : RegistryState)
    (hchain : ∀ n ∈ chain,
      ¬(n.sType = VK_STRUCTURE_TYPE_LOADER_INSTANCE_CREATE_INFO ∧
        n.function = VK_LAYER_LINK_INFO)) :
    CreateInstance chain nextResult nextInstance dispatchTable addOk s =
      ⟨VK_ERROR_INITIALIZATION_FAILED, s, false⟩ := by
  simp [CreateInstance, findInstanceCreateInfo_eq_none chain hchain]

/-- Witness for C2: a chain holding one record with the right tag but
the wrong sub-tag and one with the wrong tag. -/
theorem createInstance_no_loader_link_witness :
    (∀ n ∈ [ChainNode.mk 47 1, ChainNode.mk 3 0],
      ¬(n.sType = VK_STRUCTURE_TYPE_LOADER_INSTANCE_CREATE_INFO ∧
        n.function = VK_LAYER_LINK_INFO)) ∧
    CreateInstance [ChainNode.mk 47 1, ChainNode.mk 3 0] 0 5 50 true
        ⟨[], []⟩ =
      ⟨VK_ERROR_INITIALIZATION_FAILED, ⟨[], []⟩, false⟩ := by
  refine ⟨by decide, ?_⟩
  exact createInstance_no_loader_link [ChainNode.mk 47 1, ChainNode.mk 3 0]
    0 5 50 true ⟨[], []⟩ (by decide)

/-- C3: when the next layer's create call fails (non-success result),
both `CreateInstance` and `CreateDevice` return that result unchanged
and perform no registry mutation (instance maps and device dispatch map
are untouched). -/
theorem upstream_failure_propagated (chain dchain : List ChainNode)
    (info dinfo : ChainNode) (nextResult : Int)
    (nextInstance nextDevice tableI tableD pdKey inst : Nat)
    (addOkI addOkD : Bool) (s : RegistryState) (dmap : List (Nat × Nat))
    (hfind : FindInstanceCreateInfo chain = some info)
    (hdfind : FindDeviceCreateInfo dchain = some dinfo)
    (hinst : GetInstance pdKey s = some inst)
    (hres : nextResult ≠ VK_SUCCESS) :
    CreateInstance chain nextResult nextInstance tableI addOkI s =
      ⟨nextResult, s, true⟩ ∧
    CreateDevice dchain pdKey nextResult nextDevice tableD addOkD s dmap =
      some ⟨nextResult, dmap, true⟩ := by
  constructor
  · simp [CreateInstance, hfind, hres]
  · simp [CreateDevice, hdfind, hinst, hres]

/-- Witness for C3 at `VK_ERROR_OUT_OF_DEVICE_MEMORY` (code `-2`) with a
one-record loader chain and a registered instance. -/
theorem upstream_failure_propagated_witness :
    (FindInstanceCreateInfo [ChainNode.mk 47 0] = some (ChainNode.mk 47 0) ∧
     FindDeviceCreateInfo [ChainNode.mk 48 0] = some (ChainNode.mk 48 0) ∧
     GetInstance (InstanceKey 1) (AddInstance 1 10 ⟨[], []⟩) = some 1 ∧
     (-2 : Int) ≠ VK_SUCCESS) ∧
    CreateInstance [ChainNode.mk 47 0] (-2) 5 50 true
        (AddInstance 1 10 ⟨[], []⟩) =
      ⟨-2, AddInstance 1 10 ⟨[], []⟩, true⟩ ∧
    CreateDevice [ChainNode.mk 48 0] (InstanceKey 1) (-2) 7 70 true
        (AddInstance 1 10 ⟨[], []⟩) [] =
      some ⟨-2, [], true⟩ := by
  refine ⟨⟨by decide, by decide, by decide, by decide⟩, ?_⟩
  exact upstream_failure_propagated [ChainNode.mk 47 0] [ChainNode.mk 48 0]
    (ChainNode.mk 47 0) (ChainNode.mk 48 0) (-2) 5 7 50 70 (InstanceKey 1) 1
    true true (AddInstance 1 10 ⟨[], []⟩) []
    (by decide) (by decide) (by decide) (by decide)

/-- C4: when the next layer's create call succeeds but registration
(`AddInstance` / `AddDevice`) fails, both `CreateInstance` and
`CreateDevice` return `VK_ERROR_OUT_OF_HOST_MEMORY`; the registry is
left untouched (the driver object exists but is untracked). -/
theorem registration_failure_oom (chain dchain : List ChainNode)
    (info dinfo : ChainNode) (nextInstance nextDevice tableI tableD pdKey inst : Nat)
    (s : RegistryState) (dmap : List (Nat × Nat))
    (hfind : FindInstanceCreateInfo chain = some info)
    (hdfind : FindDeviceCreateInfo dchain = some dinfo)
    (hinst : GetInstance pdKey s = some inst) :
    CreateInstance chain VK_SUCCESS nextInstance tableI false s =
      ⟨VK_ERROR_OUT_OF_HOST_MEMORY, s, true⟩ ∧
    CreateDevice dchain pdKey VK_SUCCESS nextDevice tableD false s dmap =
      some ⟨VK_ERROR_OUT_OF_HOST_MEMORY, dmap, true⟩ := by
  constructor
  · simp [CreateInstance, hfind, AddInstanceChecked]
  · simp [CreateDevice, hdfind, hinst, AddDeviceChecked]

/-- Witness for C4 with a one-record loader chain and a registered
instance, registration forced to fail. -/
theorem registration_failure_oom_witness :
    (FindInstanceCreateInfo [ChainNode.mk 47 0] = some (ChainNode.mk 47 0) ∧
     FindDeviceCreateInfo [ChainNode.mk 48 0] = some (ChainNode.mk 48 0) ∧
     GetInstance (InstanceKey 1) (AddInstance 1 10 ⟨[], []⟩) = some 1) ∧
    CreateInstance [ChainNode.mk 47 0] VK_SUCCESS 5 50 false
        (AddInstance 1 10 ⟨[], []⟩) =
      ⟨VK_ERROR_OUT_OF_HOST_MEMORY, AddInstance 1 10 ⟨[], []⟩, true⟩ ∧
    CreateDevice [ChainNode.mk 48 0] (InstanceKey 1) VK_SUCCESS 7 70 false
        (AddInstance 1 10 ⟨[], []⟩) [] =
      some ⟨VK_ERROR_OUT_OF_HOST_MEMORY, [], true⟩ := by
  refine ⟨⟨by decide, by decide, by decide⟩, ?_⟩
  exact registration_failure_oom [ChainNode.mk 47 0] [ChainNode.mk 48 0]
    (ChainNode.mk 47 0) (ChainNode.mk 48 0) 5 7 50 70 (InstanceKey 1) 1
    (AddInstance 1 10 ⟨[], []⟩) []
    (by decide) (by decide) (by decide)

/-! ## C5–C6: log-line emission -/

/-- C5: `LogLine(eventType, line, timestamp)` appends `line` verbatim
(plus the line terminator) to the primary sink's durable contents, and,
exactly when the secondary structured sink is configured, appends the
single line `eventType,timestampNanos,line` to it (`Option.map` captures
both directions: an absent secondary sink stays absent and untouched). -/
theorem logLine_writes_both_sinks (et line : String) (ts : Int)
    (s : LoggerState) :
    (LogLine et line ts s).out = s.out ++ line ++ "\n" ∧
    (LogLine et line ts s).event_log =
      s.event_log.map fun el =>
        el ++ (et ++ "," ++ toString ts ++ "," ++ line) ++ "\n" :=
  ⟨rfl, rfl⟩

/-- C6: `Log` forwards the quoted, bracketed, comma-joined hex list
with the prefix content to `LogLine`; concretely
`Log("pipeline_cache_hit", {0x1, 0x2}, "42")` appends the line
`"[0x1,0x2]",42` (the bracketed list in double quotes, a comma, then 42)
to the primary sink. -/
theorem log_pipeline_cache_hit_line (ts : Int) (s : LoggerState) :
    (Log "pipeline_cache_hit" [1, 2] "42" ts s).out =
      s.out ++ "\"[0x1,0x2]\",42" ++ "\n" := by
  have hC : CsvCat2 (quotedStr (PipelineHashToString [1, 2])) "42" =
      "\"[0x1,0x2]\",42" := by decide
  simp only [Log, LogLine]
  rw [hC]
  rfl

/-! ## C7: inter-event time delta -/

/-- C7: on a fresh `LayerData`, the first `GetTimeDelta` call returns
the sentinel "no prior call" value, and a second call (clock monotone,
clock readings distinct from the sentinel) returns the elapsed time
since the first call, which is non-negative. -/
theorem getTimeDelta_fresh_then_nonneg (t1 t2 : Int)
    (h1 : t1 ≠ TIMEPOINT_MIN) (h12 : t1 ≤ t2) :
    (GetTimeDelta t1 freshTimeState).1 = DURATION_MIN ∧
    (GetTimeDelta t2 (GetTimeDelta t1 freshTimeState).2).1 = t2 - t1 ∧
    0 ≤ (GetTimeDelta t2 (GetTimeDelta t1 freshTimeState).2).1 := by
  refine ⟨by simp [GetTimeDelta, freshTimeState], ?_, ?_⟩
  · simp [GetTimeDelta, freshTimeState, h1]
  · simp [GetTimeDelta, freshTimeState, h1]
    omega

/-- Witness for C7 at clock readings 5 then 7. -/
theorem getTimeDelta_fresh_then_nonneg_witness :
    ((5 : Int) ≠ TIMEPOINT_MIN ∧ (5 : Int) ≤ 7) ∧
    ((GetTimeDelta 5 freshTimeState).1 = DURATION_MIN ∧
     (GetTimeDelta 7 (GetTimeDelta 5 freshTimeState).2).1 = 7 - 5 ∧
     0 ≤ (GetTimeDelta 7 (GetTimeDelta 5 freshTimeState).2).1) :=
  ⟨⟨by decide, by decide⟩,
   getTimeDelta_fresh_then_nonneg 5 7 (by decide) (by decide)⟩

/-! ## C8: hexadecimal rendering of shader hashes -/

theorem hexDigitsRevFuel_fuel_irrelevant (n : Nat) :
    ∀ fuel₁ fuel₂, n ≤ fuel₁ → n ≤ fuel₂ →
      hexDigitsRevFuel fuel₁ n = hexDigitsRevFuel fuel₂ n := by
  induction n using Nat.strong_induction_on with
  | _ n ih =>
    intro fuel₁ fuel₂ h1 h2
    cases n with
    | zero => cases fuel₁ <;> cases fuel₂ <;> simp [hexDigitsRevFuel]
    | succ m =>
      cases fuel₁ with
      | zero => omega
      | succ f₁ =>
        cases fuel₂ with
        | zero => omega
        | succ f₂ =>
          have hdiv : (m + 1) / 16 < m + 1 :=
            Nat.div_lt_self (by omega) (by omega)
          simp only [hexDigitsRevFuel, if_neg (Nat.succ_ne_zero m)]
          exact congrArg _
            (ih ((m + 1) / 16) hdiv f₁ f₂ (by omega) (by omega))

theorem hexDigitsRev_eq_cons (n : Nat) (hn : n ≠ 0) :
    hexDigitsRev n = hexDigitChar (n % 16) :: hexDigitsRev (n / 16) := by
  cases n with
  | zero => exact absurd rfl hn
  | succ m =>
    show hexDigitsRevFuel (m + 1) (m + 1) = _
    simp only [hexDigitsRevFuel, if_neg (Nat.succ_ne_zero m)]
    refine congrArg _ ?_
    have hdiv : (m + 1) / 16 < m + 1 := Nat.div_lt_self (by omega) (by omega)
    exact hexDigitsRevFuel_fuel_irrelevant ((m + 1) / 16) m ((m + 1) / 16)
      (by omega) (le_refl _)

theorem hexDigitsRev_ne_nil (n : Nat) (hn : n ≠ 0) : hexDigitsRev n ≠ [] := by
  rw [hexDigitsRev_eq_cons n hn]
  simp

theorem hexDigitsRev_all_lower_hex (n : Nat) :
    ∀ c ∈ hexDigitsRev n, isLowerHexDigit c = true := by
  induction n using Nat.strong_induction_on with
  | _ n ih =>
    by_cases hn : n = 0
    · subst hn
      intro c hc
      simp [hexDigitsRev, hexDigitsRevFuel] at hc
    · rw [hexDigitsRev_eq_cons n hn]
      intro c hc
      rcases List.mem_cons.mp hc with h | h
      · subst h
        have h16 : n % 16 < 16 := Nat.mod_lt _ (by omega)
        have hall : ∀ d, d < 16 → isLowerHexDigit (hexDigitChar d) = true := by
          decide
        exact hall _ h16
      · exact ih (n / 16)
          (Nat.div_lt_self (Nat.pos_of_ne_zero hn) (by omega)) c h

theorem ofHexDigits_hexDigitsRev (n : Nat) :
    ofHexDigits (hexDigitsRev n).reverse = n := by
  induction n using Nat.strong_induction_on with
  | _ n ih =>
    by_cases hn : n = 0
    · subst hn
      rfl
    · rw [hexDigitsRev_eq_cons n hn, List.reverse_cons]
      have hfold :
          ofHexDigits
            ((hexDigitsRev (n / 16)).reverse ++ [hexDigitChar (n % 16)]) =
          ofHexDigits (hexDigitsRev (n / 16)).reverse * 16 +
            hexCharVal (hexDigitChar (n % 16)) := by
        simp [ofHexDigits, List.foldl_append]
      rw [hfold,
        ih (n / 16) (Nat.div_lt_self (Nat.pos_of_ne_zero hn) (by omega))]
      have h16 : n % 16 < 16 := Nat.mod_lt _ (by omega)
      have hval : ∀ d, d < 16 → hexCharVal (hexDigitChar d) = d := by decide
      rw [hval _ h16]
      omega

/-- C8 counterexample: the hash value 0 is rendered by
`ShaderHashToString` (that is, by `absl::StrFormat("%#x", 0)`) as the
unprefixed string `"0"`, not as a `0x`-prefixed hexadecimal rendering. -/
theorem shaderHashToString_zero_unprefixed :
    ShaderHashToString 0 = "0" ∧
    (ShaderHashToString 0).take 2 ≠ "0x" ∧
    ShaderHashToString 0 ≠ "0x0" :=
  ⟨rfl, by decide, by decide⟩

/-- C8 (amended): for every nonzero 64-bit shader content hash, the
string exposed to downstream log consumers is `0x` followed by a
nonempty string of lowercase hexadecimal digit characters whose base-16
value is the hash; the hash 0 alone is rendered as `"0"` without the
prefix. -/
theorem shaderHashToString_lower_hex (h : Nat) (hne : h ≠ 0) :
    ShaderHashToString h = "0x" ++ String.mk (hexDigitsRev h).reverse ∧
    (hexDigitsRev h).reverse ≠ [] ∧
    (∀ c ∈ (hexDigitsRev h).reverse, isLowerHexDigit c = true) ∧
    ofHexDigits (hexDigitsRev h).reverse = h ∧
    ShaderHashToString 0 = "0" := by
  refine ⟨by simp [ShaderHashToString, hne], ?_, ?_,
    ofHexDigits_hexDigitsRev h, rfl⟩
  · intro hrev
    exact hexDigitsRev_ne_nil h hne (List.reverse_eq_nil_iff.mp hrev)
  · intro c hc
    exact hexDigitsRev_all_lower_hex h c (List.mem_reverse.mp hc)

/-- Witness for the amended C8 at hash 255 (`"0xff"`). -/
theorem shaderHashToString_lower_hex_witness :
    (255 : Nat) ≠ 0 ∧
    (ShaderHashToString 255 = "0x" ++ String.mk (hexDigitsRev 255).reverse ∧
     (hexDigitsRev 255).reverse ≠ [] ∧
     (∀ c ∈ (hexDigitsRev 255).reverse, isLowerHexDigit c = true) ∧
     ofHexDigits (hexDigitsRev 255).reverse = 255 ∧
     ShaderHashToString 0 = "0") ∧
    ShaderHashToString 255 = "0xff" :=
  ⟨by decide, shaderHashToString_lower_hex 255 (by decide), by decide⟩

/-! ## C9: CommonLogger sink lifecycle -/

/-- C9: `EndLog` closes the sink (recording the `fclose`) and nulls
`out_` when the sink is a file; the standard-error sink is never closed
(`EndLog` is a no-op on it); `EndLog` is idempotent; and after `EndLog`
on a file sink the write operations `AddEvent` and `Flush` fail their
`assert(out_)`, so only another `EndLog` is permitted. -/
theorem commonLogger_endLog_lifecycle (s s' s'' : CommonLoggerState)
    (e : Event) (i : Nat)
    (hi : s.out = some (LogSink.fileSink i))
    (hs' : s'.out = some LogSink.stderrSink) :
    ((EndLog s).out = none ∧ (EndLog s).closed = s.closed ++ [i] ∧
     AddEvent e (EndLog s) = none ∧ Flush (EndLog s) = none) ∧
    EndLog s' = s' ∧
    EndLog (EndLog s'') = EndLog s'' := by
  refine ⟨?_, ?_, ?_⟩
  · simp [EndLog, hi, AddEvent, Flush]
  · cases s'' with
    | mk o c w => simp [EndLog, hs']
  · cases s'' with
    | mk o c w =>
      cases o with
      | none => rfl
      | some snk => cases snk <;> rfl

/-- Witness for C9: a logger on file 3 and a logger on stderr. -/
theorem commonLogger_endLog_lifecycle_witness :
    (((EndLog ⟨some (LogSink.fileSink 3), [], []⟩).out = none ∧
      (EndLog ⟨some (LogSink.fileSink 3), [], []⟩).closed = [] ++ [3] ∧
      AddEvent ⟨"e", []⟩ (EndLog ⟨some (LogSink.fileSink 3), [], []⟩) = none ∧
      Flush (EndLog ⟨some (LogSink.fileSink 3), [], []⟩) = none) ∧
     EndLog ⟨some LogSink.stderrSink, [], []⟩ =
       ⟨some LogSink.stderrSink, [], []⟩ ∧
     EndLog (EndLog ⟨some (LogSink.fileSink 9), [7], []⟩) =
       EndLog ⟨some (LogSink.fileSink 9), [7], []⟩) :=
  commonLogger_endLog_lifecycle ⟨some (LogSink.fileSink 3), [], []⟩
    ⟨some LogSink.stderrSink, [], []⟩ ⟨some (LogSink.fileSink 9), [7], []⟩
    ⟨"e", []⟩ 3 rfl rfl

/-! ## C10: shader-module creation always hashes and registers -/

/-- C10: for every forwarded result — success or failure alike —
`CreateShaderModule` computes the content hash from the output module
handle and the supplied code, registers it in the shader-hash registry,
and returns the structure carrying the forwarded status, that hash, and
the start/end timestamps captured around the forwarded call. -/
theorem createShaderModule_hash_unconditional (res : Int) (m : Nat)
    (code : List Nat) (t1 t2 : Int) (s : ShaderState) :
    (CreateShaderModule res m code t1 t2 s).1 =
      ⟨res, shaderHashValue m code, t1, t2⟩ ∧
    lookupKey m (CreateShaderModule res m code t1 t2 s).2.shader_hash_map =
      some (shaderHashValue m code) :=
  ⟨rfl, lookupKey_insertKey_self m _ _⟩

end PerformanceLayers
